import Mathlib

/-!
Verification of the ICM20602 inertial-sensor driver
(`src/drivers/icm20602/icm20602.cpp`).

The driver's pure configuration computations and its per-cycle
measurement / register-health state machines are shallowly embedded
here.  C `float` arithmetic is modelled by exact rationals (the claims
under study only involve values that are exactly representable);
machine integers are modelled by `Nat`/`Int` with explicit `% 2 ^ w`
reductions where narrowing matters.
-/

namespace ICM20602

/-- `OK` return code of the driver (0). -/
def OK : Int := 0

/-- The errno value EIO (5); the driver returns its negation on I/O failure. -/
def eio : Int := 5

/-- errno value `EINVAL`; the driver returns `-EINVAL` on invalid arguments. -/
def EINVAL : Int := 22

/-! ## Sample-rate divider (`ICM20602::_set_sample_rate`) -/

/-- Modelled from the spec: `ICM20602_GYRO_DEFAULT_RATE`, the fixed rate the
default/zero sentinels remap to.  The macro lives in the driver header that is
not part of `src/`; the code comment above `_set_sample_rate` gives the range
"1kHz to 5Hz", so the default is 1 kHz. -/
def ICM20602_GYRO_DEFAULT_RATE : Nat := 1000

/-- Embedding of `ICM20602::_set_sample_rate` (icm20602.cpp:673-690), returning
the programmed divider value `div`.  The sentinel macros
`GYRO_SAMPLERATE_DEFAULT` / `ACCEL_SAMPLERATE_DEFAULT` come from headers
outside `src/`, so their numeric values are taken as parameters `g` and `a`.
`uint8_t div = 1000 / hz` truncates the unsigned quotient and narrows it to a
byte, hence the `% 256`. -/
def set_sample_rate_div (g a hz : Nat) : Nat :=
  let hz1 := if hz = 0 ∨ hz = g ∨ hz = a then ICM20602_GYRO_DEFAULT_RATE else hz
  let d0 := (1000 / hz1) % 256
  let d1 := if d0 > 200 then 200 else d0
  if d1 < 1 then 1 else d1

/-- `_sample_rate = 1000 / div` (icm20602.cpp:689), C unsigned division. -/
def sample_rate_of_div (d : Nat) : Nat := 1000 / d

/-- The divider formula as the spec words it: `clamp(round(1000/hz), 1, 200)`
with real (rounded, not truncated) division.  Used only to compare the spec's
formula against the code. -/
def specDivider (hz : Nat) : Int := max 1 (min 200 (round ((1000 : ℚ) / hz)))

/-! ## Accel range selection (`ICM20602::set_accel_range`) -/

/-- Modelled from the spec: `ICM20602_ONE_G`, standard gravity in m/s²
(9.80665); the macro lives in the driver header that is not part of `src/`. -/
def ICM20602_ONE_G : ℚ := 980665 / 100000

/-- Outcome of `set_accel_range`: the `AFS_SEL` field written to
`ICMREG_ACCEL_CONFIG` (shifted by 3 in the register value), the chosen
LSB-per-g constant and bucket, and the two derived member fields. -/
structure AccelRangeResult where
  afs_sel : Nat
  lsb_per_g : ℚ
  max_accel_g : ℚ
  accel_range_scale : ℚ
  accel_range_m_s2 : ℚ
deriving DecidableEq, Repr

/-- The `afs_sel` local of `set_accel_range`: the if/else-if ladder of
icm20602.cpp:1396-1415. -/
def afsSelOf (max_g_in : Nat) : Nat :=
  if max_g_in > 8 then 3
  else if max_g_in > 4 then 2
  else if max_g_in > 2 then 1
  else 0

/-- The `lsb_per_g` local of `set_accel_range`, same ladder. -/
def lsbPerG (max_g_in : Nat) : ℚ :=
  if max_g_in > 8 then 2048
  else if max_g_in > 4 then 4096
  else if max_g_in > 2 then 8192
  else 16384

/-- The `max_accel_g` local of `set_accel_range`, same ladder. -/
def maxAccelG (max_g_in : Nat) : ℚ :=
  if max_g_in > 8 then 16
  else if max_g_in > 4 then 8
  else if max_g_in > 2 then 4
  else 2

/-- Embedding of `ICM20602::set_accel_range` (icm20602.cpp:1389-1422): the
ladder assigns the three locals, then
`_accel_range_scale = ICM20602_ONE_G / lsb_per_g` and
`_accel_range_m_s2 = max_accel_g * ICM20602_ONE_G`. -/
def set_accel_range (max_g_in : Nat) : AccelRangeResult :=
  { afs_sel := afsSelOf max_g_in
    lsb_per_g := lsbPerG max_g_in
    max_accel_g := maxAccelG max_g_in
    accel_range_scale := ICM20602_ONE_G / lsbPerG max_g_in
    accel_range_m_s2 := maxAccelG max_g_in * ICM20602_ONE_G }

/-! ## Accel calibration setter (`ACCELIOCSSCALE` in `ICM20602::ioctl`) -/

/-- `struct accel_calibration_s`: per-axis offsets and scales (floats in the
code, exact rationals here). -/
structure AccelCal where
  x_offset : ℚ
  y_offset : ℚ
  z_offset : ℚ
  x_scale : ℚ
  y_scale : ℚ
  z_scale : ℚ
deriving DecidableEq, Repr

/-- `float sum = s->x_scale + s->y_scale + s->z_scale` (icm20602.cpp:1215). -/
def sumScales (s : AccelCal) : ℚ := s.x_scale + s.y_scale + s.z_scale

/-- Embedding of the `ACCELIOCSSCALE` ioctl branch (icm20602.cpp:1212-1224):
returns the ioctl return value and the `_accel_scale` state after the call,
given the prior calibration `cur` and the requested blob `s`. -/
def accel_ioctl_set_scale (cur s : AccelCal) : Int × AccelCal :=
  if 2 < sumScales s ∧ sumScales s < 4 then (OK, s) else (-EINVAL, cur)

/-! ## Driver state shared by `measure` and `check_registers` -/

/-- The mutable driver fields read or written by `ICM20602::measure` and
`ICM20602::check_registers`.  Perf counters are modelled as plain `Nat`
counters.  `lastAccel` holds the 6 raw bytes of `_last_accel` (the duplicate
latch); `checkedValues` holds the 8 shadow register values.  The checked
register *addresses* come from a header outside `src/` and never influence the
claims, so registers are identified by their index in the checked set. -/
structure DriverState where
  inFactoryTest : Bool
  resetWait : Nat
  registerWait : Nat
  lastAccel : List Nat
  gotDuplicate : Bool
  pubBlocked : Bool
  checkedNext : Nat
  checkedValues : List Nat
  badTransfers : Nat
  goodTransfers : Nat
  duplicates : Nat
  badRegisters : Nat
deriving DecidableEq, Repr

/-- One bus transaction's worth of raw bytes (`struct ICMReport` without the
status byte): 6 accel bytes, 2 temperature bytes, 6 gyro bytes, each a
big-endian hi/lo pair per 16-bit field. -/
structure RawSample where
  accelBytes : List Nat
  tempBytes : List Nat
  gyroBytes : List Nat
deriving DecidableEq, Repr

/-- Modelled from the spec: `int16_t_from_bytes` (conversion helper from a
framework header outside `src/`), which assembles a big-endian byte pair into
a host-order signed 16-bit value (spec §4.3 step 4). -/
def toInt16 (hi lo : Nat) : Int :=
  let u := (hi % 256) * 256 + lo % 256
  if u < 32768 then (u : Int) else (u : Int) - 65536

/-- The local `struct Report` of `measure`: the seven host-order 16-bit
fields. -/
structure DecodedReport where
  accel_x : Int
  accel_y : Int
  accel_z : Int
  temp : Int
  gyro_x : Int
  gyro_y : Int
  gyro_z : Int
deriving DecidableEq, Repr

/-- The all-zero test of icm20602.cpp:1593-1599 on the seven decoded
fields. -/
def DecodedReport.isZero (d : DecodedReport) : Bool :=
  d.accel_x == 0 && d.accel_y == 0 && d.accel_z == 0 && d.temp == 0 &&
  d.gyro_x == 0 && d.gyro_y == 0 && d.gyro_z == 0

/-- Big-endian decoding of all seven fields (icm20602.cpp:1582-1590). -/
def decode (r : RawSample) : DecodedReport :=
  { accel_x := toInt16 (r.accelBytes.getD 0 0) (r.accelBytes.getD 1 0)
    accel_y := toInt16 (r.accelBytes.getD 2 0) (r.accelBytes.getD 3 0)
    accel_z := toInt16 (r.accelBytes.getD 4 0) (r.accelBytes.getD 5 0)
    temp := toInt16 (r.tempBytes.getD 0 0) (r.tempBytes.getD 1 0)
    gyro_x := toInt16 (r.gyroBytes.getD 0 0) (r.gyroBytes.getD 1 0)
    gyro_y := toInt16 (r.gyroBytes.getD 2 0) (r.gyroBytes.getD 3 0)
    gyro_z := toInt16 (r.gyroBytes.getD 4 0) (r.gyroBytes.getD 5 0) }

/-- Per-invocation inputs of `measure` that come from collaborators: the
current time `hrt_absolute_time()`, whether the bus read returned the full
record, the raw bytes it produced, and the booleans returned by the two
`Integrator::put` calls (the integrator is an external numeric utility). -/
structure CycleIn where
  now : Nat
  readOk : Bool
  raw : RawSample
  notifyAccel : Bool
  notifyGyro : Bool
deriving DecidableEq, Repr

/-- Observable outcome of one `measure` invocation: return value, successor
state, and which externally visible actions the call performed.
`busTransfer` records whether `_interface->read` was invoked; `publishedAccel`
/ `publishedGyro` record the `orb_publish` calls; `dupSuppressed`, `zeroData`
and `goodTransfer` mirror the `_duplicates`, `_bad_transfers` and
`_good_transfers` perf counts of this cycle; `arbRaw` / `grbRaw` hold the
post-fix-up raw triplets stored into the reports when the pipeline reaches
report population, `none` otherwise.  `measure` never issues a chip reset
command (no `write_reg(ICMREG_PWR_MGMT_1, BIT_H_RESET)` appears in it), so no
reset action is modelled here. -/
structure MeasureResult where
  ret : Int
  s : DriverState
  busTransfer : Bool
  dupSuppressed : Bool
  zeroData : Bool
  goodTransfer : Bool
  publishedAccel : Bool
  publishedGyro : Bool
  arbRaw : Option (Int × Int × Int)
  grbRaw : Option (Int × Int × Int)
deriving DecidableEq, Repr

/-- Embedding of `ICM20602::measure` (icm20602.cpp:1519-1768).  Branches in
source order: factory-test gate, reset-wait gate, bus read, duplicate check,
big-endian decode, all-zero check, good-transfer count and register-wait
countdown, axis fix-up, report population and publication
(`accel_notify && !_pub_blocked`, likewise for gyro). -/
def measure (st : DriverState) (c : CycleIn) : MeasureResult :=
  if st.inFactoryTest then
    { ret := OK, s := st, busTransfer := false, dupSuppressed := false
      zeroData := false, goodTransfer := false, publishedAccel := false
      publishedGyro := false, arbRaw := none, grbRaw := none }
  else if c.now < st.resetWait then
    { ret := OK, s := st, busTransfer := false, dupSuppressed := false
      zeroData := false, goodTransfer := false, publishedAccel := false
      publishedGyro := false, arbRaw := none, grbRaw := none }
  else if c.readOk = false then
    { ret := -eio, s := st, busTransfer := true, dupSuppressed := false
      zeroData := false, goodTransfer := false, publishedAccel := false
      publishedGyro := false, arbRaw := none, grbRaw := none }
  else if st.gotDuplicate = false ∧ c.raw.accelBytes = st.lastAccel then
    { ret := OK
      s := { st with duplicates := st.duplicates + 1, gotDuplicate := true }
      busTransfer := true, dupSuppressed := true, zeroData := false
      goodTransfer := false, publishedAccel := false, publishedGyro := false
      arbRaw := none, grbRaw := none }
  else
    let st1 := { st with lastAccel := c.raw.accelBytes, gotDuplicate := false }
    let d := decode c.raw
    if d.isZero = true then
      { ret := -eio
        s := { st1 with badTransfers := st1.badTransfers + 1 }
        busTransfer := true, dupSuppressed := false, zeroData := true
        goodTransfer := false, publishedAccel := false, publishedGyro := false
        arbRaw := none, grbRaw := none }
    else
      let st2 := { st1 with goodTransfers := st1.goodTransfers + 1 }
      if st2.registerWait ≠ 0 then
        { ret := OK
          s := { st2 with registerWait := st2.registerWait - 1 }
          busTransfer := true, dupSuppressed := false, zeroData := false
          goodTransfer := true, publishedAccel := false
          publishedGyro := false, arbRaw := none, grbRaw := none }
      else
        { ret := OK, s := st2, busTransfer := true, dupSuppressed := false
          zeroData := false, goodTransfer := true
          publishedAccel := c.notifyAccel && !st2.pubBlocked
          publishedGyro := c.notifyGyro && !st2.pubBlocked
          arbRaw := some (d.accel_y,
            if d.accel_x = -32768 then 32767 else -d.accel_x, d.accel_z)
          grbRaw := some (d.gyro_y,
            if d.gyro_x = -32768 then 32767 else -d.gyro_x, d.gyro_z) }

/-- Observable outcome of one `check_registers` invocation: successor state,
whether the full-reset command `write_reg(ICMREG_PWR_MGMT_1, BIT_H_RESET)` was
issued, and which single register (index into the checked set, shadow value)
was rewritten in the cheap-fix branch, if any. -/
structure CheckResult where
  s : DriverState
  resetCmd : Bool
  rewrote : Option (Nat × Nat)
deriving DecidableEq, Repr

/-- Embedding of `ICM20602::check_registers` (icm20602.cpp:1463-1517).
`v` is the byte the bus read returned for the register at the cursor, `now`
is `hrt_absolute_time()`.  The final cursor advance
`_checked_next = (_checked_next + 1) % 8` is unconditional, so in the
full-reset branch the cursor is first set to 0 and then advanced to 1. -/
def check_registers (st : DriverState) (now v : Nat) : CheckResult :=
  if v ≠ st.checkedValues.getD st.checkedNext 0 then
    if st.registerWait = 0 ∨ st.checkedNext = 0 then
      { s := { st with
                 resetWait := now + 10000, checkedNext := (0 + 1) % 8
                 registerWait := 20, badRegisters := st.badRegisters + 1 }
        resetCmd := true, rewrote := none }
    else
      { s := { st with
                 resetWait := now + 3000
                 checkedNext := (st.checkedNext + 1) % 8
                 registerWait := 20, badRegisters := st.badRegisters + 1 }
        resetCmd := false
        rewrote := some (st.checkedNext, st.checkedValues.getD st.checkedNext 0) }
  else
    { s := { st with checkedNext := (st.checkedNext + 1) % 8 }
      resetCmd := false, rewrote := none }

/-! ## Traces of measurement cycles -/

/-- Run `measure` over a list of per-cycle inputs, recording for each cycle
the state at entry and the produced result. -/
def measureTrace (st : DriverState) : List CycleIn → List (DriverState × MeasureResult)
  | [] => []
  | c :: cs =>
    let r := measure st c
    (st, r) :: measureTrace r.s cs

/-- Number of good transfers (`_good_transfers` increments) in a trace. -/
def goodCount (tr : List (DriverState × MeasureResult)) : Nat :=
  tr.countP (fun p => p.2.goodTransfer)

/-- Length of the leading run of `true` in a boolean list. -/
def leadTrue : List Bool → Nat
  | true :: bs => leadTrue bs + 1
  | _ => 0

/-- Whether a boolean list contains `n` consecutive `true` entries. -/
def hasTrueRun (n : Nat) : List Bool → Bool
  | [] => decide (n = 0)
  | b :: bs => decide (n ≤ leadTrue (b :: bs)) || hasTrueRun n bs

/-! ## C4: sample-rate divider -/

/-- C4 counterexample: the claim says the programmed divider equals
`clamp(round(1000/requested_Hz), 1, 200)`.  At a requested rate of 7 Hz the
code computes the *truncated* quotient `1000 / 7 = 142`, while the claimed
rounded formula gives 143; at 3 Hz the `uint8_t` narrowing wraps `333` to
`77`, far from the claimed clamped value 200.  (The default sentinels, here
1000002 and 1000001, are irrelevant to these inputs.) -/
theorem sample_rate_divider_counterexample :
    (set_sample_rate_div 1000002 1000001 7 : Int) = 142 ∧
    specDivider 7 = 143 ∧
    (set_sample_rate_div 1000002 1000001 7 : Int) ≠ specDivider 7 ∧
    (set_sample_rate_div 1000002 1000001 3 : Int) = 77 ∧
    specDivider 3 = 200 := by
  refine ⟨by decide, ?_, ?_, by decide, ?_⟩
  · show max 1 (min 200 (round ((1000 : ℚ) / 7))) = 143
    norm_num [round_eq]
  · show (142 : Int) ≠ max 1 (min 200 (round ((1000 : ℚ) / 7)))
    norm_num [round_eq]
  · show max 1 (min 200 (round ((1000 : ℚ) / 3))) = 200
    norm_num [round_eq]

/-- C4 (amended): for every requested rate that is nonzero and distinct from
the two default sentinels, the programmed divider equals
`clamp((1000 / Hz) % 256, 1, 200)` — C truncating division narrowed to a
`uint8_t`, not the rounded real quotient — and for 5 ≤ Hz ≤ 1000 the divider
is exactly the truncated quotient `1000 / Hz`, with the effective rate being
the truncated quotient `1000 / divider`. -/
theorem sample_rate_divider_spec (g a hz : Nat)
    (h0 : hz ≠ 0) (hg : hz ≠ g) (ha : hz ≠ a) :
    set_sample_rate_div g a hz = min 200 (max 1 ((1000 / hz) % 256)) ∧
    (5 ≤ hz → hz ≤ 1000 →
      set_sample_rate_div g a hz = 1000 / hz ∧
      sample_rate_of_div (set_sample_rate_div g a hz) = 1000 / (1000 / hz)) := by
  have hsent : ¬(hz = 0 ∨ hz = g ∨ hz = a) := by tauto
  constructor
  · simp only [set_sample_rate_div, hsent, if_false]
    split_ifs <;> omega
  · intro h5 h1000
    have hle : 1000 / hz ≤ 200 := by
      calc 1000 / hz ≤ 1000 / 5 := Nat.div_le_div_left h5 (by norm_num)
        _ = 200 := by norm_num
    have hge : 1 ≤ 1000 / hz := (Nat.one_le_div_iff (by omega)).mpr h1000
    have hdiv : set_sample_rate_div g a hz = 1000 / hz := by
      simp only [set_sample_rate_div, hsent, if_false]
      split_ifs <;> omega
    refine ⟨hdiv, ?_⟩
    rw [hdiv]
    rfl

/-- C4 witness: the two instances the claim names do hold on the code —
requesting 500 Hz yields divider 2 and effective rate 500 Hz, requesting
1 Hz yields divider 200 and effective rate 5 Hz. -/
theorem sample_rate_divider_spec_witness :
    set_sample_rate_div 1000002 1000001 500 = 2 ∧
    sample_rate_of_div (set_sample_rate_div 1000002 1000001 500) = 500 ∧
    set_sample_rate_div 1000002 1000001 1 = 200 ∧
    sample_rate_of_div (set_sample_rate_div 1000002 1000001 1) = 5 := by
  have h500 :=
    sample_rate_divider_spec 1000002 1000001 500 (by decide) (by decide) (by decide)
  have h1 :=
    sample_rate_divider_spec 1000002 1000001 1 (by decide) (by decide) (by decide)
  have e500 : set_sample_rate_div 1000002 1000001 500 = 2 :=
    (h500.2 (by decide) (by decide)).1.trans (by decide)
  have e1 : set_sample_rate_div 1000002 1000001 1 = 200 :=
    h1.1.trans (by decide)
  refine ⟨e500, ?_, e1, ?_⟩
  · rw [e500]
    decide
  · rw [e1]
    decide

/-! ## C6: accel range selection -/

/-- Ladder case `max_g_in > 8`: the 16 g bucket. -/
lemma set_accel_range_of_gt8 (n : Nat) (h : 8 < n) :
    set_accel_range n =
      { afs_sel := 3, lsb_per_g := 2048, max_accel_g := 16
        accel_range_scale := ICM20602_ONE_G / 2048
        accel_range_m_s2 := 16 * ICM20602_ONE_G } := by
  simp [set_accel_range, afsSelOf, lsbPerG, maxAccelG, h]

/-- Ladder case `4 < max_g_in ≤ 8`: the 8 g bucket. -/
lemma set_accel_range_of_gt4 (n : Nat) (h4 : 4 < n) (h8 : n ≤ 8) :
    set_accel_range n =
      { afs_sel := 2, lsb_per_g := 4096, max_accel_g := 8
        accel_range_scale := ICM20602_ONE_G / 4096
        accel_range_m_s2 := 8 * ICM20602_ONE_G } := by
  simp [set_accel_range, afsSelOf, lsbPerG, maxAccelG, h4,
    show ¬8 < n by omega]

/-- Ladder case `2 < max_g_in ≤ 4`: the 4 g bucket. -/
lemma set_accel_range_of_gt2 (n : Nat) (h2 : 2 < n) (h4 : n ≤ 4) :
    set_accel_range n =
      { afs_sel := 1, lsb_per_g := 8192, max_accel_g := 4
        accel_range_scale := ICM20602_ONE_G / 8192
        accel_range_m_s2 := 4 * ICM20602_ONE_G } := by
  simp [set_accel_range, afsSelOf, lsbPerG, maxAccelG, h2,
    show ¬8 < n by omega, show ¬4 < n by omega]

/-- Ladder case `max_g_in ≤ 2`: the 2 g bucket. -/
lemma set_accel_range_of_le2 (n : Nat) (h2 : n ≤ 2) :
    set_accel_range n =
      { afs_sel := 0, lsb_per_g := 16384, max_accel_g := 2
        accel_range_scale := ICM20602_ONE_G / 16384
        accel_range_m_s2 := 2 * ICM20602_ONE_G } := by
  simp [set_accel_range, afsSelOf, lsbPerG, maxAccelG,
    show ¬8 < n by omega, show ¬4 < n by omega, show ¬2 < n by omega]

/-- C6: accel range selection follows the exclusive threshold ladder
(>8 ⇒ 16 g / 2048 LSB-per-g, >4 ⇒ 8 g / 4096, >2 ⇒ 4 g / 8192, else
2 g / 16384); the chosen bucket is one of {2,4,8,16} and, for requests ≤ 16,
it is the smallest supported bucket ≥ the request; the scale factor is
standard gravity divided by the LSB-per-g and the max range is bucket-g times
standard gravity. -/
theorem accel_range_spec (n : Nat) :
    (set_accel_range n).accel_range_scale
      = ICM20602_ONE_G / (set_accel_range n).lsb_per_g ∧
    (set_accel_range n).accel_range_m_s2
      = (set_accel_range n).max_accel_g * ICM20602_ONE_G ∧
    (8 < n →
      (set_accel_range n).max_accel_g = 16 ∧
      (set_accel_range n).lsb_per_g = 2048 ∧ (set_accel_range n).afs_sel = 3) ∧
    (4 < n → n ≤ 8 →
      (set_accel_range n).max_accel_g = 8 ∧
      (set_accel_range n).lsb_per_g = 4096 ∧ (set_accel_range n).afs_sel = 2) ∧
    (2 < n → n ≤ 4 →
      (set_accel_range n).max_accel_g = 4 ∧
      (set_accel_range n).lsb_per_g = 8192 ∧ (set_accel_range n).afs_sel = 1) ∧
    (n ≤ 2 →
      (set_accel_range n).max_accel_g = 2 ∧
      (set_accel_range n).lsb_per_g = 16384 ∧ (set_accel_range n).afs_sel = 0) ∧
    ((set_accel_range n).max_accel_g = 2 ∨ (set_accel_range n).max_accel_g = 4 ∨
      (set_accel_range n).max_accel_g = 8 ∨ (set_accel_range n).max_accel_g = 16) ∧
    (n ≤ 16 → (n : ℚ) ≤ (set_accel_range n).max_accel_g) ∧
    (∀ b : ℚ, b = 2 ∨ b = 4 ∨ b = 8 ∨ b = 16 → (n : ℚ) ≤ b →
      (set_accel_range n).max_accel_g ≤ b) := by
  by_cases h8 : 8 < n
  · rw [set_accel_range_of_gt8 n h8]
    refine ⟨rfl, rfl, fun _ => ⟨rfl, rfl, rfl⟩,
      fun h4 hc => absurd hc (by omega), fun h2 hc => absurd hc (by omega),
      fun hc => absurd h8 (by omega), by norm_num, fun h16 => by show (n : ℚ) ≤ 16; exact_mod_cast h16, ?_⟩
    rintro b (rfl | rfl | rfl | rfl) hb
    · exact absurd (by exact_mod_cast hb : n ≤ 2) (by omega)
    · exact absurd (by exact_mod_cast hb : n ≤ 4) (by omega)
    · exact absurd (by exact_mod_cast hb : n ≤ 8) (by omega)
    · norm_num
  · by_cases h4 : 4 < n
    · rw [set_accel_range_of_gt4 n h4 (by omega)]
      refine ⟨rfl, rfl, fun hc => absurd hc h8, fun _ _ => ⟨rfl, rfl, rfl⟩,
        fun h2 hc => absurd hc (by omega), fun hc => absurd h4 (by omega),
        by norm_num, fun _ => ?_, ?_⟩
      · show (n : ℚ) ≤ 8
        exact_mod_cast (by omega : n ≤ 8)
      · rintro b (rfl | rfl | rfl | rfl) hb
        · exact absurd (by exact_mod_cast hb : n ≤ 2) (by omega)
        · exact absurd (by exact_mod_cast hb : n ≤ 4) (by omega)
        · norm_num
        · norm_num
    · by_cases h2 : 2 < n
      · rw [set_accel_range_of_gt2 n h2 (by omega)]
        refine ⟨rfl, rfl, fun hc => absurd hc h8, fun hc => absurd hc h4,
          fun _ _ => ⟨rfl, rfl, rfl⟩, fun hc => absurd h2 (by omega),
          by norm_num, fun _ => ?_, ?_⟩
        · show (n : ℚ) ≤ 4
          exact_mod_cast (by omega : n ≤ 4)
        · rintro b (rfl | rfl | rfl | rfl) hb
          · exact absurd (by exact_mod_cast hb : n ≤ 2) (by omega)
          · norm_num
          · norm_num
          · norm_num
      · rw [set_accel_range_of_le2 n (by omega)]
        refine ⟨rfl, rfl, fun hc => absurd hc h8, fun hc => absurd hc h4,
          fun hc => absurd hc h2, fun _ => ⟨rfl, rfl, rfl⟩,
          by norm_num, fun _ => ?_, ?_⟩
        · show (n : ℚ) ≤ 2
          exact_mod_cast (by omega : n ≤ 2)
        · rintro b (rfl | rfl | rfl | rfl) hb <;> norm_num

/-- C6 witness: requesting max-g = 10 selects the 16 g bucket and the scale
factor is standard gravity divided by 2048. -/
theorem accel_range_spec_witness :
    (set_accel_range 10).max_accel_g = 16 ∧
    (set_accel_range 10).accel_range_scale = ICM20602_ONE_G / 2048 := by
  have h := accel_range_spec 10
  have h16 := h.2.2.1 (by norm_num)
  exact ⟨h16.1, by rw [h.1, h16.2.1]⟩

/-! ## C7: accel calibration setter -/

/-- Prior calibration used in the C7 scenarios. -/
def c7cur : AccelCal :=
  { x_offset := 1 / 10, y_offset := -1 / 10, z_offset := 0
    x_scale := 1, y_scale := 1, z_scale := 1 }

/-- Blob whose axis scales sum to exactly 4.0. -/
def c7s4 : AccelCal :=
  { x_offset := 0, y_offset := 0, z_offset := 0
    x_scale := 2, y_scale := 1, z_scale := 1 }

/-- Blob whose axis scales sum to 5.0. -/
def c7s5 : AccelCal :=
  { x_offset := 0, y_offset := 0, z_offset := 0
    x_scale := 3, y_scale := 1, z_scale := 1 }

/-- C7 counterexample: the claim says a blob is accepted if and only if its
scales sum to within the *closed* interval [2.0, 4.0].  A blob whose scales
sum to exactly 4.0 lies in that interval yet the code (`sum > 2.0f && sum <
4.0f`) rejects it with `-EINVAL`, leaving the prior calibration in place. -/
theorem accel_scale_setter_counterexample :
    sumScales c7s4 = 4 ∧
    (2 : ℚ) ≤ sumScales c7s4 ∧ sumScales c7s4 ≤ 4 ∧
    accel_ioctl_set_scale c7cur c7s4 = (-EINVAL, c7cur) ∧
    (accel_ioctl_set_scale c7cur c7s4).1 ≠ OK := by
  refine ⟨by norm_num [sumScales, c7s4], by norm_num [sumScales, c7s4],
    by norm_num [sumScales, c7s4], ?_, ?_⟩ <;>
    norm_num [accel_ioctl_set_scale, sumScales, c7s4, OK, EINVAL]

/-- C7 (amended): the setter accepts a calibration blob if and only if the sum
of its three axis scales lies strictly within the open interval (2.0, 4.0);
whenever it rejects — in particular for a sum of 5.0 — it returns `-EINVAL`
and leaves the prior calibration state completely unchanged. -/
theorem accel_scale_setter_spec (cur s : AccelCal) :
    ((accel_ioctl_set_scale cur s).1 = OK ↔
      2 < sumScales s ∧ sumScales s < 4) ∧
    (2 < sumScales s ∧ sumScales s < 4 →
      accel_ioctl_set_scale cur s = (OK, s)) ∧
    (¬(2 < sumScales s ∧ sumScales s < 4) →
      accel_ioctl_set_scale cur s = (-EINVAL, cur)) ∧
    (sumScales s = 5 → accel_ioctl_set_scale cur s = (-EINVAL, cur)) := by
  by_cases h : 2 < sumScales s ∧ sumScales s < 4
  · refine ⟨by simp [accel_ioctl_set_scale, h], fun _ => by
      simp [accel_ioctl_set_scale, h], fun hc => absurd h hc, fun h5 => ?_⟩
    rw [h5] at h
    norm_num at h
  · have hne : (-EINVAL : Int) ≠ OK := by norm_num [EINVAL, OK]
    refine ⟨?_, fun hc => absurd hc h, fun _ => by
      simp [accel_ioctl_set_scale, h], fun _ => by simp [accel_ioctl_set_scale, h]⟩
    simp only [accel_ioctl_set_scale, if_neg h]
    exact ⟨fun hc => absurd hc hne, fun hc => absurd hc h⟩

/-- C7 witness: a blob whose scales sum to 5.0 is rejected with `-EINVAL` and
the prior calibration survives. -/
theorem accel_scale_setter_spec_witness :
    sumScales c7s5 = 5 ∧
    accel_ioctl_set_scale c7cur c7s5 = (-EINVAL, c7cur) := by
  have h := accel_scale_setter_spec c7cur c7s5
  have h5 : sumScales c7s5 = 5 := by norm_num [sumScales, c7s5]
  exact ⟨h5, h.2.2.2 h5⟩

/-! ## C1: register health check on a shadow mismatch -/

/-- Driver state for the C1 counterexample: cursor at position 0, nonzero
sticky wait counter, nonzero shadow values. -/
def c1st : DriverState :=
  { inFactoryTest := false, resetWait := 0, registerWait := 5
    lastAccel := [0, 0, 0, 0, 0, 0], gotDuplicate := false, pubBlocked := false
    checkedNext := 0, checkedValues := [17, 18, 19, 20, 21, 22, 23, 24]
    badTransfers := 0, goodTransfers := 0, duplicates := 0, badRegisters := 0 }

/-- C1 counterexample: a mismatch with the cursor at position 0 takes the
full-reset path and does set deadline, wait counter and bad-register counter
as claimed, but the invocation does NOT leave the cursor at 0: the
unconditional end-of-call advance `_checked_next = (_checked_next + 1) % 8`
(icm20602.cpp:1516) runs after the reset branch sets it to 0, so the cursor
is 1 when `check_registers` returns. -/
theorem check_registers_mismatch_counterexample :
    (0 : Nat) ≠ c1st.checkedValues.getD c1st.checkedNext 0 ∧
    c1st.checkedNext = 0 ∧
    (check_registers c1st 100 0).resetCmd = true ∧
    (check_registers c1st 100 0).s.resetWait = 100 + 10000 ∧
    (check_registers c1st 100 0).s.registerWait = 20 ∧
    (check_registers c1st 100 0).s.badRegisters = c1st.badRegisters + 1 ∧
    (check_registers c1st 100 0).s.checkedNext = 1 ∧
    ¬((check_registers c1st 100 0).s.checkedNext = 0) := by
  decide

/-- C1 (amended): on a shadow mismatch, if the sticky wait counter is zero or
the cursor is at position 0, the full chip reset command is issued, the
recovery-wait deadline is set to now + 10 ms and the cursor is reset to 0 —
after which the unconditional cursor advance leaves it at 1 on return;
otherwise only the mismatched register is rewritten to its shadow value, the
deadline is set to now + 3 ms and the cursor advances by one modulo 8.  In
both cases the sticky wait counter is set to 20 and the bad-register counter
is incremented. -/
theorem check_registers_mismatch_spec (st : DriverState) (now v : Nat)
    (hm : v ≠ st.checkedValues.getD st.checkedNext 0) :
    ((st.registerWait = 0 ∨ st.checkedNext = 0) →
      (check_registers st now v).resetCmd = true ∧
      (check_registers st now v).s.resetWait = now + 10000 ∧
      (check_registers st now v).s.checkedNext = 1 ∧
      (check_registers st now v).rewrote = none) ∧
    (¬(st.registerWait = 0 ∨ st.checkedNext = 0) →
      (check_registers st now v).resetCmd = false ∧
      (check_registers st now v).rewrote =
        some (st.checkedNext, st.checkedValues.getD st.checkedNext 0) ∧
      (check_registers st now v).s.resetWait = now + 3000 ∧
      (check_registers st now v).s.checkedNext = (st.checkedNext + 1) % 8) ∧
    (check_registers st now v).s.registerWait = 20 ∧
    (check_registers st now v).s.badRegisters = st.badRegisters + 1 := by
  by_cases h : st.registerWait = 0 ∨ st.checkedNext = 0
  · simp only [check_registers, if_pos hm, if_pos h]
    refine ⟨fun _ => ?_, fun hc => absurd h hc, ?_, ?_⟩ <;> simp
  · simp only [check_registers, if_pos hm, if_neg h]
    refine ⟨fun hc => absurd hc h, fun _ => ?_, ?_, ?_⟩ <;> simp

/-- State for the C1 witness: cursor at position 2, sticky wait counter 5,
so a mismatch takes the single-register-rewrite path. -/
def c1wst : DriverState :=
  { inFactoryTest := false, resetWait := 0, registerWait := 5
    lastAccel := [0, 0, 0, 0, 0, 0], gotDuplicate := false, pubBlocked := false
    checkedNext := 2, checkedValues := [17, 18, 19, 20, 21, 22, 23, 24]
    badRegisters := 3, badTransfers := 0, goodTransfers := 0, duplicates := 0 }

/-- C1 witness: at a non-zero cursor with a non-zero wait counter, the
mismatched register (index 2, shadow 19) is rewritten, the deadline becomes
now + 3 ms, the wait counter becomes 20 and the bad-register count rises. -/
theorem check_registers_mismatch_spec_witness :
    (check_registers c1wst 100000 0).resetCmd = false ∧
    (check_registers c1wst 100000 0).rewrote = some (2, 19) ∧
    (check_registers c1wst 100000 0).s.resetWait = 103000 ∧
    (check_registers c1wst 100000 0).s.registerWait = 20 ∧
    (check_registers c1wst 100000 0).s.badRegisters = 4 := by
  have h := check_registers_mismatch_spec c1wst 100000 0 (by decide)
  have h2 := h.2.1 (by decide)
  exact ⟨h2.1, h2.2.1.trans (by decide), h2.2.2.1, h.2.2.1, h.2.2.2.trans (by decide)⟩

/-! ## C5: behaviour while the recovery-wait deadline has not elapsed -/

/-- State for the C5 scenarios: a recovery-wait deadline armed in the
future. -/
def c5st : DriverState :=
  { inFactoryTest := false, resetWait := 1000, registerWait := 20
    lastAccel := [0, 0, 0, 0, 0, 0], gotDuplicate := false, pubBlocked := false
    checkedNext := 0, checkedValues := List.replicate 8 0
    badTransfers := 0, goodTransfers := 0, duplicates := 0, badRegisters := 0 }

/-- Cycle input arriving before the C5 deadline. -/
def c5in : CycleIn :=
  { now := 500, readOk := true
    raw := { accelBytes := [1, 2, 0, 0, 0, 3], tempBytes := [0, 1]
             gyroBytes := [0, 4, 0, 5, 0, 6] }
    notifyAccel := true, notifyGyro := true }

/-- C5 counterexample: the claim says that before the recovery-wait deadline
the pipeline "still performs its bus transfer".  It does not: `measure`
returns at icm20602.cpp:1527-1530 *before* `_interface->read`, so no bus
transfer happens (and nothing is published). -/
theorem reset_wait_counterexample :
    c5in.now < c5st.resetWait ∧
    (measure c5st c5in).busTransfer = false ∧
    ¬((measure c5st c5in).busTransfer = true) ∧
    (measure c5st c5in).publishedAccel = false ∧
    (measure c5st c5in).publishedGyro = false := by
  decide

/-- C5 (amended): for every measurement-pipeline invocation occurring while
the recovery-wait deadline has not yet elapsed (outside factory test), the
pipeline returns OK immediately: it performs no bus transfer, publishes
nothing, and leaves the driver state completely unchanged. -/
theorem reset_wait_spec (st : DriverState) (c : CycleIn)
    (hf : st.inFactoryTest = false) (hw : c.now < st.resetWait) :
    measure st c =
      { ret := OK, s := st, busTransfer := false, dupSuppressed := false
        zeroData := false, goodTransfer := false, publishedAccel := false
        publishedGyro := false, arbRaw := none, grbRaw := none } := by
  simp [measure, hf, hw]

/-- C5 witness: the amended behaviour at the concrete pre-deadline cycle. -/
theorem reset_wait_spec_witness :
    measure c5st c5in =
      { ret := OK, s := c5st, busTransfer := false, dupSuppressed := false
        zeroData := false, goodTransfer := false, publishedAccel := false
        publishedGyro := false, arbRaw := none, grbRaw := none } :=
  reset_wait_spec c5st c5in rfl (by decide)

/-! ## C3: duplicate suppression -/

/-- C3: in any cycle that reaches the duplicate check (not factory test,
deadline elapsed, bus read ok): if the previous cycle was not flagged
duplicate and the new raw accel bytes equal the latch, the cycle counts a
duplicate, sets the flag, leaves the latch alone and returns OK without
publishing; otherwise the latch is rewritten to the new bytes and the flag is
cleared.  Moreover any cycle whose raw accel bytes differ from the latch and
whose data is nonzero, taken with a drained wait counter, publication enabled
and an integration boundary, publishes normally — so a cycle with a different
triplet after a suppressed one resumes publication. -/
theorem duplicate_suppression_spec (st st2 : DriverState) (c c2 : CycleIn)
    (hf : st.inFactoryTest = false) (hw : st.resetWait ≤ c.now)
    (hr : c.readOk = true) :
    (st.gotDuplicate = false → c.raw.accelBytes = st.lastAccel →
      (measure st c).dupSuppressed = true ∧
      (measure st c).s.duplicates = st.duplicates + 1 ∧
      (measure st c).s.gotDuplicate = true ∧
      (measure st c).s.lastAccel = st.lastAccel ∧
      (measure st c).ret = OK ∧
      (measure st c).publishedAccel = false ∧
      (measure st c).publishedGyro = false) ∧
    (st.gotDuplicate = true ∨ c.raw.accelBytes ≠ st.lastAccel →
      (measure st c).s.lastAccel = c.raw.accelBytes ∧
      (measure st c).s.gotDuplicate = false ∧
      (measure st c).dupSuppressed = false ∧
      (measure st c).s.duplicates = st.duplicates) ∧
    (st2.inFactoryTest = false → st2.resetWait ≤ c2.now → c2.readOk = true →
      c2.raw.accelBytes ≠ st2.lastAccel → (decode c2.raw).isZero = false →
      st2.registerWait = 0 → c2.notifyAccel = true → st2.pubBlocked = false →
      (measure st2 c2).publishedAccel = true ∧
      (measure st2 c2).dupSuppressed = false) := by
  have hnw : ¬(c.now < st.resetWait) := Nat.not_lt.mpr hw
  refine ⟨fun h1 h2 => ?_, fun hd => ?_, fun kf kw kr kd kz krw kn kp => ?_⟩
  · simp [measure, hf, hnw, hr, h1, h2]
  · have hdup : ¬(st.gotDuplicate = false ∧ c.raw.accelBytes = st.lastAccel) := by
      rcases hd with h | h <;> simp [h]
    by_cases hz : (decode c.raw).isZero = true
    · simp [measure, hf, hnw, hr, hdup, hz]
    · by_cases hrw : st.registerWait = 0 <;>
        simp [measure, hf, hnw, hr, hdup, hz, hrw]
  · have knw : ¬(c2.now < st2.resetWait) := Nat.not_lt.mpr kw
    have kdup : ¬(st2.gotDuplicate = false ∧ c2.raw.accelBytes = st2.lastAccel) := by
      simp [kd]
    simp [measure, kf, knw, kr, kdup, kz, krw, kn, kp]

/-- State for the C3 witness: latch holds the bytes the next sample repeats. -/
def c3st : DriverState :=
  { inFactoryTest := false, resetWait := 0, registerWait := 0
    lastAccel := [0, 5, 0, 6, 0, 7], gotDuplicate := false, pubBlocked := false
    checkedNext := 0, checkedValues := List.replicate 8 0
    badTransfers := 0, goodTransfers := 0, duplicates := 2, badRegisters := 0 }

/-- Cycle repeating the latched accel bytes. -/
def c3dup : CycleIn :=
  { now := 10, readOk := true
    raw := { accelBytes := [0, 5, 0, 6, 0, 7], tempBytes := [0, 1]
             gyroBytes := [0, 0, 0, 0, 0, 0] }
    notifyAccel := true, notifyGyro := true }

/-- Cycle with a fresh accel triplet. -/
def c3fresh : CycleIn :=
  { now := 20, readOk := true
    raw := { accelBytes := [0, 8, 0, 6, 0, 7], tempBytes := [0, 1]
             gyroBytes := [0, 0, 0, 0, 0, 0] }
    notifyAccel := true, notifyGyro := true }

/-- C3 witness: the repeated triplet is suppressed and counted; a fresh
triplet afterwards publishes again. -/
theorem duplicate_suppression_spec_witness :
    (measure c3st c3dup).dupSuppressed = true ∧
    (measure c3st c3dup).s.duplicates = 3 ∧
    (measure c3st c3dup).publishedAccel = false ∧
    (measure (measure c3st c3dup).s c3fresh).publishedAccel = true := by
  have h := duplicate_suppression_spec c3st (measure c3st c3dup).s c3dup c3fresh
    rfl (by decide) rfl
  have h1 := h.1 rfl (by decide)
  have h3 := h.2.2 (by decide) (by decide) rfl (by decide) (by decide)
    (by decide) rfl (by decide)
  exact ⟨h1.1, h1.2.1.trans (by decide), h1.2.2.2.2.2.1, h3.1⟩

/-! ## C8: all-zero decoded sample -/

/-- C8: in any cycle that reaches the decode step (not factory test, deadline
elapsed, read ok, not swallowed by the duplicate check) and whose seven
decoded fields are all zero, the cycle increments the bad-transfer counter,
publishes nothing, returns `-eio`, and changes no recovery state: the
recovery-wait deadline, the sticky wait counter and the good-transfer count
are untouched (and `measure` contains no reset command at all, so no chip
reset is triggered). -/
theorem zero_data_spec (st : DriverState) (c : CycleIn)
    (hf : st.inFactoryTest = false) (hw : st.resetWait ≤ c.now)
    (hr : c.readOk = true)
    (hd : st.gotDuplicate = true ∨ c.raw.accelBytes ≠ st.lastAccel)
    (hz : (decode c.raw).isZero = true) :
    (measure st c).ret = -eio ∧
    (measure st c).zeroData = true ∧
    (measure st c).s.badTransfers = st.badTransfers + 1 ∧
    (measure st c).publishedAccel = false ∧
    (measure st c).publishedGyro = false ∧
    (measure st c).goodTransfer = false ∧
    (measure st c).s.resetWait = st.resetWait ∧
    (measure st c).s.registerWait = st.registerWait ∧
    (measure st c).s.goodTransfers = st.goodTransfers := by
  have hnw : ¬(c.now < st.resetWait) := Nat.not_lt.mpr hw
  have hdup : ¬(st.gotDuplicate = false ∧ c.raw.accelBytes = st.lastAccel) := by
    rcases hd with h | h <;> simp [h]
  simp [measure, hf, hnw, hr, hdup, hz]

/-- State for the C8 witness: the latch differs from the all-zero sample so
the duplicate check does not swallow it. -/
def c8st : DriverState :=
  { inFactoryTest := false, resetWait := 0, registerWait := 7
    lastAccel := [0, 1, 0, 0, 0, 0], gotDuplicate := false, pubBlocked := false
    checkedNext := 0, checkedValues := List.replicate 8 0
    badTransfers := 4, goodTransfers := 9, duplicates := 0, badRegisters := 0 }

/-- An all-zero bus record. -/
def c8zero : CycleIn :=
  { now := 10, readOk := true
    raw := { accelBytes := [0, 0, 0, 0, 0, 0], tempBytes := [0, 0]
             gyroBytes := [0, 0, 0, 0, 0, 0] }
    notifyAccel := true, notifyGyro := true }

/-- C8 witness: the all-zero cycle is counted as a bad transfer, returns
`-eio`, publishes nothing and leaves the recovery state untouched. -/
theorem zero_data_spec_witness :
    (measure c8st c8zero).ret = -eio ∧
    (measure c8st c8zero).s.badTransfers = 5 ∧
    (measure c8st c8zero).publishedAccel = false ∧
    (measure c8st c8zero).s.resetWait = 0 ∧
    (measure c8st c8zero).s.registerWait = 7 := by
  have h := zero_data_spec c8st c8zero rfl (by decide) rfl
    (Or.inr (by decide)) (by decide)
  exact ⟨h.1, h.2.2.1.trans (by decide), h.2.2.2.1,
    h.2.2.2.2.2.2.1.trans (by decide), h.2.2.2.2.2.2.2.1.trans (by decide)⟩

/-! ## C9: axis fix-up with saturation -/

/-- C9: in any cycle that reaches the axis fix-up (all earlier gates passed,
data nonzero, wait counter drained), the raw triplets stored into the two
reports satisfy: new x equals the old y, and new y equals the negation of the
old x except that old x = −32768 saturates to +32767; z is unchanged.  This
holds for both accel and gyro. -/
theorem axis_fixup_spec (st : DriverState) (c : CycleIn)
    (hf : st.inFactoryTest = false) (hw : st.resetWait ≤ c.now)
    (hr : c.readOk = true)
    (hd : st.gotDuplicate = true ∨ c.raw.accelBytes ≠ st.lastAccel)
    (hz : (decode c.raw).isZero = false) (hrw : st.registerWait = 0) :
    (measure st c).arbRaw =
      some ((decode c.raw).accel_y,
        if (decode c.raw).accel_x = -32768 then 32767
        else -(decode c.raw).accel_x,
        (decode c.raw).accel_z) ∧
    (measure st c).grbRaw =
      some ((decode c.raw).gyro_y,
        if (decode c.raw).gyro_x = -32768 then 32767
        else -(decode c.raw).gyro_x,
        (decode c.raw).gyro_z) := by
  have hnw : ¬(c.now < st.resetWait) := Nat.not_lt.mpr hw
  have hdup : ¬(st.gotDuplicate = false ∧ c.raw.accelBytes = st.lastAccel) := by
    rcases hd with h | h <;> simp [h]
  simp [measure, hf, hnw, hr, hdup, hz, hrw]

/-- State for the C9 witness. -/
def c9st : DriverState :=
  { inFactoryTest := false, resetWait := 0, registerWait := 0
    lastAccel := [0, 0, 0, 0, 0, 0], gotDuplicate := false, pubBlocked := false
    checkedNext := 0, checkedValues := List.replicate 8 0
    badTransfers := 0, goodTransfers := 0, duplicates := 0, badRegisters := 0 }

/-- Cycle whose raw accel x is −32768 (big-endian bytes 0x80 0x00), with
accel y = 5, z = 6, gyro x = −32768, y = 7, z = 8. -/
def c9in : CycleIn :=
  { now := 10, readOk := true
    raw := { accelBytes := [128, 0, 0, 5, 0, 6], tempBytes := [0, 1]
             gyroBytes := [128, 0, 0, 7, 0, 8] }
    notifyAccel := true, notifyGyro := true }

/-- C9 witness: raw accel x = −32768 maps to transformed y = +32767 (and raw
gyro x = −32768 likewise), with x taking the old y value. -/
theorem axis_fixup_spec_witness :
    (measure c9st c9in).arbRaw = some (5, 32767, 6) ∧
    (measure c9st c9in).grbRaw = some (7, 32767, 8) := by
  have h := axis_fixup_spec c9st c9in rfl (by decide) rfl
    (Or.inr (by decide)) (by decide) rfl
  exact ⟨h.1.trans (by decide), h.2.trans (by decide)⟩

/-! ## C10: duplicate suppression skips at most one cycle per run -/

/-- Initial state for the C10 counterexample: empty latch, publication
enabled. -/
def c10st : DriverState :=
  { inFactoryTest := false, resetWait := 0, registerWait := 0
    lastAccel := [0, 0, 0, 0, 0, 0], gotDuplicate := false, pubBlocked := false
    checkedNext := 0, checkedValues := List.replicate 8 0
    badTransfers := 0, goodTransfers := 0, duplicates := 0, badRegisters := 0 }

/-- One fixed nonzero sample, repeated to build runs of identical
triplets. -/
def c10in : CycleIn :=
  { now := 0, readOk := true
    raw := { accelBytes := [0, 5, 0, 5, 0, 5], tempBytes := [0, 0]
             gyroBytes := [0, 0, 0, 0, 0, 0] }
    notifyAccel := true, notifyGyro := true }

/-- C10 counterexample: the claim says that in a run of three OR MORE
consecutive bit-identical triplets only the second cycle is suppressed.  In a
run of four identical triplets the code suppresses the second AND the fourth
cycle: suppression alternates, because each processed cycle clears the flag
and re-arms the latch. -/
theorem duplicate_alternation_counterexample :
    ((measureTrace c10st (List.replicate 4 c10in)).map
        (fun p => p.2.dupSuppressed)) = [false, true, false, true] ∧
    ((measureTrace c10st (List.replicate 4 c10in)).map
        (fun p => p.2.publishedAccel)) = [true, false, true, false] ∧
    ¬(((measureTrace c10st (List.replicate 4 c10in)).map
        (fun p => p.2.dupSuppressed)) = [false, true, false, false]) := by
  decide

/-- C10 (amended): a cycle whose predecessor was flagged duplicate is
processed as fresh data even when bit-identical to the latch — the flag is
cleared, the latch rewritten, and the sample continues to publication; hence
in a run of identical triplets the suppressed cycles alternate (2nd, 4th, …),
and in a run of exactly three only the second is suppressed. -/
theorem duplicate_alternation_spec (st : DriverState) (c : CycleIn)
    (hf : st.inFactoryTest = false) (hw : st.resetWait ≤ c.now)
    (hr : c.readOk = true) (hdup : st.gotDuplicate = true)
    (hz : (decode c.raw).isZero = false) (hrw : st.registerWait = 0) :
    ((measure st c).dupSuppressed = false ∧
     (measure st c).s.gotDuplicate = false ∧
     (measure st c).s.lastAccel = c.raw.accelBytes ∧
     (measure st c).s.duplicates = st.duplicates ∧
     (measure st c).publishedAccel = (c.notifyAccel && !st.pubBlocked)) ∧
    ((measureTrace c10st (List.replicate 3 c10in)).map
        (fun p => p.2.dupSuppressed)) = [false, true, false] := by
  have hnw : ¬(c.now < st.resetWait) := Nat.not_lt.mpr hw
  have hd : ¬(st.gotDuplicate = false ∧ c.raw.accelBytes = st.lastAccel) := by
    simp [hdup]
  constructor
  · simp [measure, hf, hnw, hr, hd, hz, hrw]
  · decide

/-- C10 witness: a third identical triplet (predecessor flagged duplicate) is
processed and published even though it equals the latch. -/
theorem duplicate_alternation_spec_witness :
    ((measure
        { c10st with gotDuplicate := true, lastAccel := [0, 5, 0, 5, 0, 5] }
        c10in).dupSuppressed = false ∧
     (measure
        { c10st with gotDuplicate := true, lastAccel := [0, 5, 0, 5, 0, 5] }
        c10in).publishedAccel = true) := by
  have h := duplicate_alternation_spec
    { c10st with gotDuplicate := true, lastAccel := [0, 5, 0, 5, 0, 5] }
    c10in rfl (by decide) rfl rfl (by decide) rfl
  exact ⟨h.1.1, h.1.2.2.2.2.trans (by decide)⟩

/-! ## C2: publication after a register mismatch -/

/-- One `measure` call changes the sticky wait counter exactly by the
good-transfer decrement (with `Nat` floor at zero, matching the guarded
`_register_wait--`). -/
lemma measure_registerWait_eq (st : DriverState) (c : CycleIn) :
    (measure st c).s.registerWait
      = st.registerWait - (if (measure st c).goodTransfer = true then 1 else 0) := by
  simp only [measure]
  split_ifs <;> simp_all

/-- A `measure` call that publishes on either channel — accel or gyro, the
two `orb_publish` calls are gated identically behind the wait-counter check —
requires the sticky wait counter to be zero at entry. -/
lemma measure_published_registerWait (st : DriverState) (c : CycleIn)
    (h : (measure st c).publishedAccel = true ∨
         (measure st c).publishedGyro = true) : st.registerWait = 0 := by
  rcases h with h | h <;>
    (simp only [measure] at h; split_ifs at h <;> simp_all)

/-- Every result in a trace is `measure` of its recorded entry state on some
input. -/
lemma measureTrace_snd (cs : List CycleIn) :
    ∀ (st : DriverState) (p : DriverState × MeasureResult),
      p ∈ measureTrace st cs → ∃ c, p.2 = measure p.1 c := by
  induction cs with
  | nil => intro st p hp; simp [measureTrace] at hp
  | cons c cs ih =>
    intro st p hp
    simp only [measureTrace, List.mem_cons] at hp
    rcases hp with rfl | hp
    · exact ⟨c, rfl⟩
    · exact ih _ p hp

/-- Along any trace, the wait counter at entry of cycle `i` is the initial
counter minus the number of good transfers among cycles before `i`. -/
lemma measureTrace_get_registerWait (cs : List CycleIn) :
    ∀ (st : DriverState) (i : Nat) (hi : i < (measureTrace st cs).length),
      ((measureTrace st cs).get ⟨i, hi⟩).1.registerWait
        = st.registerWait - goodCount ((measureTrace st cs).take i) := by
  induction cs with
  | nil => intro st i hi; simp [measureTrace] at hi
  | cons c cs ih =>
    intro st i hi
    cases i with
    | zero => simp [measureTrace, goodCount]
    | succ n =>
      have hn : n < (measureTrace (measure st c).s cs).length := by
        simpa [measureTrace] using hi
      have h1 : ((measureTrace st (c :: cs)).get ⟨n + 1, hi⟩)
          = ((measureTrace (measure st c).s cs).get ⟨n, hn⟩) := by
        simp [measureTrace]
      have h2 : (measureTrace st (c :: cs)).take (n + 1)
          = (st, measure st c) :: (measureTrace (measure st c).s cs).take n := by
        simp [measureTrace]
      rw [h1, ih, h2, measure_registerWait_eq st c]
      simp only [goodCount, List.countP_cons]
      by_cases hb : (measure st c).goodTransfer = true
      · simp [hb]
        omega
      · simp [hb]

/-- Initial state for the C2 scenarios: a mismatch has just set the sticky
wait counter to 20 and its recovery deadline has already elapsed. -/
def c2state : DriverState :=
  { inFactoryTest := false, resetWait := 0, registerWait := 20
    lastAccel := [9, 9, 9, 9, 9, 9], gotDuplicate := false, pubBlocked := false
    checkedNext := 1, checkedValues := List.replicate 8 0
    badTransfers := 0, goodTransfers := 0, duplicates := 0, badRegisters := 0 }

/-- A fresh nonzero sample, distinct for each `i`, so no duplicate check
fires. -/
def c2good (i : Nat) : CycleIn :=
  { now := 20000 + i, readOk := true
    raw := { accelBytes := [1, i % 256, 0, 0, 0, 0], tempBytes := [0, 0]
             gyroBytes := [0, 0, 0, 0, 0, 0] }
    notifyAccel := true, notifyGyro := true }

/-- An all-zero sample: a bad transfer. -/
def c2zero : CycleIn :=
  { now := 20100, readOk := true
    raw := { accelBytes := [0, 0, 0, 0, 0, 0], tempBytes := [0, 0]
             gyroBytes := [0, 0, 0, 0, 0, 0] }
    notifyAccel := true, notifyGyro := true }

/-- 19 good cycles, one bad (all-zero) transfer, then two more good cycles. -/
def c2cycles : List CycleIn :=
  ((List.range 19).map c2good) ++ [c2zero] ++ [c2good 30, c2good 31]

/-- C2 counterexample: the claim requires 20 *consecutive* good transfers
before publication resumes.  Starting from a just-set counter of 20, a trace
of 19 good cycles, one bad (all-zero) transfer and two more good cycles ends
with a published report, although the whole trace never contains 20
consecutive good transfers: the bad transfer does not reset the counter, it
merely fails to decrement it. -/
theorem register_wait_trace_counterexample :
    c2state.registerWait = 20 ∧
    ((measureTrace c2state c2cycles).map (fun p => p.2.publishedAccel))
      = List.replicate 21 false ++ [true] ∧
    hasTrueRun 20
      ((measureTrace c2state c2cycles).map (fun p => p.2.goodTransfer))
      = false := by
  decide

/-- C2 (amended): after a mismatch sets the sticky wait counter to 20, the
counter at entry of each later cycle equals 20 minus the number of good
transfers so far (floored at zero) — good transfers need not be consecutive,
and bad transfers or duplicates merely fail to decrement — and no report of
either kind (accel or gyro) can be published until at least 20 good transfers
have occurred. -/
theorem register_wait_trace_spec (st : DriverState) (cs : List CycleIn)
    (h20 : st.registerWait = 20) (i : Nat)
    (hi : i < (measureTrace st cs).length) :
    ((measureTrace st cs).get ⟨i, hi⟩).1.registerWait
      = 20 - goodCount ((measureTrace st cs).take i) ∧
    (((measureTrace st cs).get ⟨i, hi⟩).2.publishedAccel = true →
      20 ≤ goodCount ((measureTrace st cs).take i)) ∧
    (((measureTrace st cs).get ⟨i, hi⟩).2.publishedGyro = true →
      20 ≤ goodCount ((measureTrace st cs).take i)) := by
  have hw := measureTrace_get_registerWait cs st i hi
  rw [h20] at hw
  obtain ⟨cin, hc⟩ :=
    measureTrace_snd cs st _ (List.get_mem (measureTrace st cs) i hi)
  refine ⟨hw, fun hp => ?_, fun hp => ?_⟩
  · rw [hc] at hp
    have h0 := measure_published_registerWait _ _ (Or.inl hp)
    have hz := hw.symm.trans h0
    omega
  · rw [hc] at hp
    have h0 := measure_published_registerWait _ _ (Or.inr hp)
    have hz := hw.symm.trans h0
    omega

/-- C2 witness: on the concrete post-mismatch trace, the 22nd cycle — the
first one that publishes — indeed has at least 20 good transfers before it,
on both the accel and the gyro channel. -/
theorem register_wait_trace_spec_witness :
    ((measureTrace c2state c2cycles).get ⟨21, by decide⟩).1.registerWait
      = 20 - goodCount ((measureTrace c2state c2cycles).take 21) ∧
    (((measureTrace c2state c2cycles).get ⟨21, by decide⟩).2.publishedAccel = true →
      20 ≤ goodCount ((measureTrace c2state c2cycles).take 21)) ∧
    (((measureTrace c2state c2cycles).get ⟨21, by decide⟩).2.publishedGyro = true →
      20 ≤ goodCount ((measureTrace c2state c2cycles).take 21)) :=
  register_wait_trace_spec c2state c2cycles rfl 21 (by decide)

end ICM20602
